import Mathlib

/-!
Verification of the AutoSpec static-site builder (`scripts/build_site.py`)
and the search-engine ping utility (`scripts/ping_search.py`).

The Python sources are shallowly embedded below: every pure helper becomes a
Lean function, the `main` pipeline becomes a pure function from its inputs
(CSV rows, redirect rows, affiliate configuration, environment variables and
the wall clock) to the ordered list of file writes it performs.  File system
effects are modelled by that write list: the final content of a path is the
last write to it.
-/

/-- Python `str.strip()` on the character list of a string: drop whitespace
from the front, then from the back. -/
def pyStripList (l : List Char) : List Char :=
  ((l.dropWhile Char.isWhitespace).reverse.dropWhile Char.isWhitespace).reverse

/-- Python `str.strip()`: remove leading and trailing whitespace. -/
def pyStrip (s : String) : String :=
  ⟨pyStripList s.data⟩

/-- A row of `data/items.csv` as produced by `csv.DictReader`: each header
field is present, but a short CSV line yields `None` (here `none`) values. -/
structure Row where
  keyword : Option String := none
  entity : Option String := none
  «attribute» : Option String := none
  modifier : Option String := none
  merchant : Option String := none
  deeplink_slug : Option String := none
deriving DecidableEq, Repr

/-- A row of `data/redirects.csv` (`old_slug,new_slug`). -/
structure RedirectRow where
  old_slug : Option String := none
  new_slug : Option String := none
deriving DecidableEq, Repr

/-- The per-page record appended to `pages_meta` in `main`. -/
structure PageMeta where
  title : String
  desc : String
  path : String
deriving DecidableEq, Repr

/-- One merchant's entry in `config/affiliates.json`. -/
structure MerchantConf where
  deeplink_base : Option String := none
  utm : Option String := none
deriving DecidableEq, Repr

/-- The parsed affiliate configuration: a mapping from merchant name to its
configuration, modelled as an association list (JSON objects have unique
keys; lookup takes the first match). -/
def AffConf := List (String × MerchantConf)

/-- Environment variables read by `build_site.py`. -/
structure Env where
  baseUrl : Option String := none
  adsLine : Option String := none

/-- A calendar date, as returned by `datetime.date.today()`. -/
structure Date where
  year : Nat
  month : Nat
  day : Nat
deriving DecidableEq, Repr

/-- A wall-clock instant, as returned by `datetime.datetime.utcnow()`. -/
structure DateTime where
  year : Nat
  month : Nat
  day : Nat
  hour : Nat
  minute : Nat
  second : Nat
  microsecond : Nat
deriving DecidableEq, Repr

/-- Embedding of `read_json_safe`: the affiliate file is either absent (`none`) or has
some text contents; `parse` models `json.loads`, which either succeeds or
raises (here: returns `.error`).  On absence or parse failure the function
returns the empty mapping; it is total, so no exception propagates. -/
def read_json_safe (parse : String → Except String AffConf)
    (file : Option String) : AffConf :=
  match file with
  | none => []
  | some text =>
    match parse text with
    | .ok conf => conf
    | .error _ => []

/-- Embedding of `norm_base_url`: drop one trailing slash if present. -/
def norm_base_url (url : String) : String :=
  if url.data.getLast? = some '/' then ⟨url.data.dropLast⟩ else url

/-- Replacement of every non-overlapping occurrence of `pat` (scanning left
to right) by `rep`, with explicit fuel so that the kernel can evaluate it;
`fuel` must be at least the length of the scanned list. -/
def replaceFuel (pat rep : List Char) : Nat → List Char → List Char
  | _, [] => []
  | 0, l => l
  | fuel + 1, c :: rest =>
    if pat ≠ [] ∧ pat.isPrefixOf (c :: rest) then
      rep ++ replaceFuel pat rep fuel (List.drop pat.length (c :: rest))
    else
      c :: replaceFuel pat rep fuel rest

/-- Python `"...".format(slug=slug)` for the deeplink templates: replace
every occurrence of the placeholder with the slug. -/
def pyFormatSlug (template slug : String) : String :=
  ⟨replaceFuel "{slug}".data slug.data template.data.length template.data⟩

/-- Embedding of `load_affiliate`: look up the merchant (a `None` merchant behaves like
the empty string), substitute the slug into the deeplink template, and when
both the substituted base and the utm fragment are non-empty join them with
`&` if the base already contains `?`, else with `?`.  The configuration is
the result of `read_json_safe` on `config/affiliates.json`. -/
def load_affiliate (conf : AffConf) (merchant : Option String)
    (slug : String) : String :=
  let m := (List.lookup (merchant.getD "") conf).getD {}
  let base := pyFormatSlug (m.deeplink_base.getD "") slug
  let utm := m.utm.getD ""
  if base ≠ "" ∧ utm ≠ "" then
    base ++ (if base.data.contains '?' then "&" else "?") ++ utm
  else
    base

/-- Zero-padded two-digit rendering, as `datetime.isoformat` uses. -/
def pad2 (n : Nat) : String :=
  if n < 10 then "0" ++ toString n else toString n

/-- Zero-padded four-digit rendering for the year. -/
def pad4 (n : Nat) : String :=
  if n < 10 then "000" ++ toString n
  else if n < 100 then "00" ++ toString n
  else if n < 1000 then "0" ++ toString n
  else toString n

/-- Zero-padded six-digit rendering for microseconds. -/
def pad6 (n : Nat) : String :=
  if n < 10 then "00000" ++ toString n
  else if n < 100 then "0000" ++ toString n
  else if n < 1000 then "000" ++ toString n
  else if n < 10000 then "00" ++ toString n
  else if n < 100000 then "0" ++ toString n
  else toString n

/-- Python `datetime.date.isoformat()`: `YYYY-MM-DD`. -/
def isoDate (d : Date) : String :=
  pad4 d.year ++ "-" ++ pad2 d.month ++ "-" ++ pad2 d.day

/-- Python `datetime.datetime.isoformat()`: `YYYY-MM-DDTHH:MM:SS`, with a
fractional part appended only when the microsecond field is non-zero. -/
def isoDateTime (dt : DateTime) : String :=
  pad4 dt.year ++ "-" ++ pad2 dt.month ++ "-" ++ pad2 dt.day ++ "T" ++
    pad2 dt.hour ++ ":" ++ pad2 dt.minute ++ ":" ++ pad2 dt.second ++
    (if dt.microsecond = 0 then "" else "." ++ pad6 dt.microsecond)

/-- Embedding of `now_utc_iso`: `utcnow().replace(microsecond=0).isoformat() + "Z"`.
The wall clock is passed in explicitly as `clock`. -/
def now_utc_iso (clock : DateTime) : String :=
  isoDateTime { clock with microsecond := 0 } ++ "Z"

/-- JSON string escaping of one character, as `json.dumps` performs with
`ensure_ascii=False`. -/
def jsonEscapeChar (c : Char) : String :=
  if c = '\\' then "\\\\"
  else if c = '"' then "\\\""
  else if c = '\n' then "\\n"
  else if c = '\t' then "\\t"
  else if c = '\r' then "\\r"
  else String.singleton c

/-- A JSON string literal for `s`. -/
def jsonStr (s : String) : String :=
  "\"" ++ String.join (s.data.map jsonEscapeChar) ++ "\""

/-- The `schema_org_article` record serialised by `json.dumps(..., ensure_ascii=False,
indent=2)`: the keys in insertion order, two-space indentation. -/
def schema_org_article_json (title desc url : String) (today : Date) : String :=
  "\x7b\n  \"@context\": \"https://schema.org\",\n  \"@type\": \"Article\",\n  \"headline\": "
    ++ jsonStr title
    ++ ",\n  \"description\": " ++ jsonStr desc
    ++ ",\n  \"mainEntityOfPage\": \x7b\n    \"@type\": \"WebPage\",\n    \"@id\": "
    ++ jsonStr url
    ++ "\n  \x7d,\n  \"author\": \x7b\n    \"@type\": \"Person\",\n    \"name\": \"AutoSpec\"\n  \x7d,\n  \"dateModified\": "
    ++ jsonStr (isoDate today) ++ "\n\x7d"

/-- The default line passed to `write_ads_txt` by `main`. -/
def defaultAdsLine : String :=
  "google.com, pub-4919301978364078, DIRECT, f08c47fec0942fa0"

/-- Embedding of `write_ads_txt`: `(os.getenv("ADS_TXT_LINE") or default_line).strip()`
followed by a newline.  An unset variable gives `none`; Python `or` also
falls back to the default when the variable is set to the empty string. -/
def adsRawLine (adsEnv : Option String) (defLine : String) : String :=
  match adsEnv with
  | some s => if s = "" then defLine else s
  | none => defLine

/-- The content of `ads.txt`: the stripped chosen line plus one newline. -/
def write_ads_txt_content (adsEnv : Option String) (defLine : String) : String :=
  pyStrip (adsRawLine adsEnv defLine) ++ "\n"

/-- Embedding of `write_robots_txt`: the fixed three-line crawler policy. -/
def robots_txt_content (base_url : String) : String :=
  "User-agent: *\nAllow: /\nSitemap: " ++ base_url ++ "/sitemap.xml\n"

/-- One `url` element of the sitemap: `loc`, optional `lastmod`,
`changefreq` and `priority` children, in that order. -/
structure UrlEntry where
  loc : String
  lastmod : Option String
  changefreq : String
  priority : String
deriving DecidableEq, Repr

/-- The inner `add_url` of `write_sitemap`: the `lastmod` child is emitted
only when the argument is truthy (not `None` and not empty). -/
def add_url (loc : String) (changefreq : String := "weekly")
    (priority : String := "0.6") (lastmod : Option String := none) : UrlEntry :=
  { loc := loc
    lastmod := match lastmod with
      | some s => if s = "" then none else some s
      | none => none
    changefreq := changefreq
    priority := priority }

/-- The `url` children of the `urlset` element built by `write_sitemap`:
one root entry, then one entry appended per page-meta record, all sharing
the single timestamp `ts` captured at the top of the function. -/
def sitemap_urls (base_url : String) (pages_meta : List PageMeta)
    (clock : DateTime) : List UrlEntry :=
  let ts := now_utc_iso clock
  pages_meta.foldl
    (fun acc p => acc ++ [add_url (base_url ++ "/" ++ p.path) "weekly" "0.6" (some ts)])
    [add_url (base_url ++ "/") "weekly" "0.8" (some ts)]

/-- XML text escaping as `xml.etree.ElementTree` performs on text nodes. -/
def xmlEscapeChar (c : Char) : String :=
  if c = '&' then "&amp;"
  else if c = '<' then "&lt;"
  else if c = '>' then "&gt;"
  else String.singleton c

/-- XML text escaping of a whole string. -/
def xmlEscape (s : String) : String :=
  String.join (s.data.map xmlEscapeChar)

/-- Serialisation of one `url` element. -/
def urlEntryXml (e : UrlEntry) : String :=
  "<url><loc>" ++ xmlEscape e.loc ++ "</loc>"
    ++ (match e.lastmod with
        | some ts => "<lastmod>" ++ xmlEscape ts ++ "</lastmod>"
        | none => "")
    ++ "<changefreq>" ++ xmlEscape e.changefreq ++ "</changefreq><priority>"
    ++ xmlEscape e.priority ++ "</priority></url>"

/-- The bytes of `sitemap.xml`.  `tostring(urlset, encoding="utf-8")`
already prepends an XML declaration of its own, and `write_sitemap` then
prepends a second one, so the file starts with two declarations. -/
def sitemap_xml (base_url : String) (pages_meta : List PageMeta)
    (clock : DateTime) : String :=
  "<?xml version=\x271.0\x27 encoding=\x27UTF-8\x27?>\n"
    ++ "<?xml version=\x271.0\x27 encoding=\x27utf-8\x27?>\n"
    ++ "<urlset xmlns=\"http://www.sitemaps.org/schemas/sitemap/0.9\">"
    ++ String.join ((sitemap_urls base_url pages_meta clock).map urlEntryXml)
    ++ "</urlset>"

/-- Embedding of `write_soft_redirect`: the exact document written to
`OUT/«from_slug».html`, with the target URL spliced in three times. -/
def write_soft_redirect_html (to_url : String) : String :=
  "<!doctype html>\n<html lang=\"ko\"><head>\n<meta charset=\"utf-8\"/>\n<meta http-equiv=\"refresh\" "
    ++ ("content=\"0;url=" ++ to_url ++ "\"")
    ++ "/>\n"
    ++ ("<link rel=\"canonical\" href=\"" ++ to_url ++ "\"/>")
    ++ "\n<title>Redirecting…</title>\n</head><body>\n<p>이 페이지는 <a href=\""
    ++ to_url
    ++ "\">여기로 이동</a>했어.</p>\n</body></html>\n"

/-- Modelled from the spec: the `page.html` Jinja template is not under
`src/` (only `scripts/` is).  Per §4.3 and §8 the detail template renders
the supplied variables — in particular the derived title and description —
into the document, so the model embeds each supplied field at a fixed
position. -/
def render_page_template (title description canonical schema_json : String)
    (year : Nat)
    (affiliate_url body_paragraph faq_q1 faq_a1 faq_q2 faq_a2 updated : String) :
    String :=
  "<!doctype html>\n<html lang=\"ko\">\n<head>\n<meta charset=\"utf-8\"/>\n<title>"
    ++ title
    ++ "</title>\n<meta name=\"description\" content=\"" ++ description
    ++ "\"/>\n<link rel=\"canonical\" href=\"" ++ canonical
    ++ "\"/>\n<script type=\"application/ld+json\">\n" ++ schema_json
    ++ "\n</script>\n</head>\n<body>\n<h1>" ++ title
    ++ "</h1>\n<p>" ++ description
    ++ "</p>\n<p>" ++ body_paragraph
    ++ "</p>\n<p><a href=\"" ++ affiliate_url
    ++ "\" rel=\"nofollow sponsored\">바로가기</a></p>\n<h2>" ++ faq_q1
    ++ "</h2>\n<p>" ++ faq_a1
    ++ "</p>\n<h2>" ++ faq_q2
    ++ "</h2>\n<p>" ++ faq_a2
    ++ "</p>\n<footer>updated " ++ updated ++ " © " ++ toString year
    ++ "</footer>\n</body>\n</html>\n"

/-- Modelled from the spec: the `index.html` Jinja template is not under
`src/`.  Per §4.3 it is rendered with the accumulated page list; the model
embeds each accumulated record (title, description, path) in order. -/
def render_index_template (title description canonical schema_json : String)
    (year : Nat) (pages : List PageMeta) : String :=
  "<!doctype html>\n<html lang=\"ko\">\n<head>\n<meta charset=\"utf-8\"/>\n<title>"
    ++ title
    ++ "</title>\n<meta name=\"description\" content=\"" ++ description
    ++ "\"/>\n<link rel=\"canonical\" href=\"" ++ canonical
    ++ "\"/>\n<script type=\"application/ld+json\">" ++ schema_json
    ++ "</script>\n</head>\n<body>\n<ul>\n"
    ++ String.join (pages.map (fun p =>
        "<li><a href=\"" ++ p.path ++ "\">" ++ p.title ++ "</a> — "
          ++ p.desc ++ "</li>\n"))
    ++ "</ul>\n<footer>© " ++ toString year ++ "</footer>\n</body>\n</html>\n"

/-- The derived title of a row: `f"{keyword} | {entity} {attribute}"` with
every component stripped and the whole stripped again. -/
def rowTitle (r : Row) : String :=
  pyStrip (pyStrip (r.keyword.getD "") ++ " | " ++ pyStrip (r.entity.getD "")
    ++ " " ++ pyStrip (r.«attribute».getD ""))

/-- The derived description of a row. -/
def rowDesc (r : Row) : String :=
  pyStrip (r.entity.getD "") ++ " " ++ pyStrip (r.«attribute».getD "")
    ++ " — " ++ pyStrip (r.modifier.getD "") ++ " 기준으로 정리했어."

/-- The trimmed slug of a row. -/
def rowSlug (r : Row) : String :=
  pyStrip (r.deeplink_slug.getD "")

/-- The `body_paragraph` derived from a row (raw fields, not stripped). -/
def rowBodyParagraph (r : Row) : String :=
  (r.entity.getD "") ++ "의 " ++ (r.«attribute».getD "")
    ++ " 선택 기준을 한눈에 정리했어. 추천 스펙은 \x27"
    ++ (r.modifier.getD "") ++ "\x27이야. 상황에 따라 다를 수 있으니 실제 상품 상세를 꼭 확인해줘."

/-- The detail document rendered for one row: the canonical URL is
`{base_url}/{slug}.html`, the structured-data block, the affiliate link and
the two FAQ pairs are derived from the row exactly as in `main`. -/
def rowPageHtml (base_url : String) (conf : AffConf) (today : Date)
    (r : Row) : String :=
  render_page_template (rowTitle r) (rowDesc r)
    (base_url ++ "/" ++ rowSlug r ++ ".html")
    (schema_org_article_json (rowTitle r) (rowDesc r)
      (base_url ++ "/" ++ rowSlug r ++ ".html") today)
    today.year
    (load_affiliate conf r.merchant (rowSlug r))
    (rowBodyParagraph r)
    ((r.entity.getD "") ++ " " ++ (r.«attribute».getD "") ++ "은(는) 무엇을 의미해?")
    ((r.«attribute».getD "") ++ "은(는) " ++ (r.entity.getD "") ++ "의 핵심 특성을 정의하는 항목이야.")
    ((r.modifier.getD "") ++ "가 모두에게 최선이야?")
    "아니야. 사용 환경과 목적에 따라 다를 수 있어. 본 페이지는 의사결정을 돕기 위한 가이드야."
    (isoDate today)

/-- One iteration of the `items.csv` loop in `main`: `none` when the row's
trimmed slug is empty (the row is skipped), otherwise the file write
(path, content) together with the `pages_meta` record. -/
def detailPage (base_url : String) (conf : AffConf) (today : Date)
    (r : Row) : Option ((String × String) × PageMeta) :=
  if rowSlug r = "" then none
  else
    some ((rowSlug r ++ ".html", rowPageHtml base_url conf today r),
      ⟨rowTitle r, rowDesc r, rowSlug r ++ ".html"⟩)

/-- One iteration of the `redirects.csv` loop in `main`: `none` when either
trimmed slug is empty (the row is skipped), otherwise the stub write. -/
def redirectWrite (base_url : String) (rr : RedirectRow) :
    Option (String × String) :=
  let old_slug := pyStrip (rr.old_slug.getD "")
  let new_slug := pyStrip (rr.new_slug.getD "")
  if old_slug = "" ∨ new_slug = "" then none
  else
    some (old_slug ++ ".html",
      write_soft_redirect_html (base_url ++ "/" ++ new_slug ++ ".html"))

/-- The default `BASE_URL`. -/
def defaultBaseUrl : String := "https://rinosene.github.io"

/-- The base URL computed by `main` from the environment. -/
def runBaseUrl (env : Env) : String :=
  norm_base_url (env.baseUrl.getD defaultBaseUrl)

/-- The `pages_meta` list accumulated by `main`: one record per row whose
trimmed slug is non-empty, in row order.  An absent `items.csv` behaves
like an empty row list. -/
def runPagesMeta (env : Env) (items : Option (List Row)) (conf : AffConf)
    (today : Date) : List PageMeta :=
  ((items.getD []).filterMap (detailPage (runBaseUrl env) conf today)).map Prod.snd

/-- The `index.html` content of a run. -/
def runIndexHtml (env : Env) (items : Option (List Row)) (conf : AffConf)
    (today : Date) : String :=
  render_index_template "AutoSpec" "사양·호환·규격 모음" (runBaseUrl env ++ "/")
    "\x7b\"@context\": \"https://schema.org\", \"@type\": \"CollectionPage\", \"name\": \"AutoSpec\"\x7d"
    today.year (runPagesMeta env items conf today)

/-- Embedding of `main` as a pure function from its inputs to the ordered list of file
writes `(path, content)` it performs: the detail pages in row order, then
`index.html`, then the redirect stubs in row order, then `ads.txt`,
`robots.txt` and `sitemap.xml`. -/
def runPipeline (env : Env) (items : Option (List Row))
    (redirects : Option (List RedirectRow)) (conf : AffConf)
    (today : Date) (clock : DateTime) : List (String × String) :=
  ((items.getD []).filterMap (detailPage (runBaseUrl env) conf today)).map
      Prod.fst
    ++ [("index.html", runIndexHtml env items conf today)]
    ++ (redirects.getD []).filterMap (redirectWrite (runBaseUrl env))
    ++ [("ads.txt", write_ads_txt_content env.adsLine defaultAdsLine),
        ("robots.txt", robots_txt_content (runBaseUrl env)),
        ("sitemap.xml",
          sitemap_xml (runBaseUrl env) (runPagesMeta env items conf today)
            clock)]

/-- The final content of path `p` after the run: the last write to `p`. -/
def lastWrite (writes : List (String × String)) (p : String) :
    Option String :=
  (writes.reverse.find? (fun w => w.1 == p)).map Prod.snd

/-- The number of writes a run performs to path `p`. -/
def writeCount (writes : List (String × String)) (p : String) : Nat :=
  writes.countP (fun w => w.1 == p)

/-- Predicate: `pat` occurs as a contiguous substring of `doc`. -/
def strContains (doc pat : String) : Prop :=
  pat.data <:+: doc.data

instance (doc pat : String) : Decidable (strContains doc pat) :=
  List.decidableInfix pat.data doc.data

/-- The ping endpoints hard-coded in `ping_search.py`. -/
def pingTargets : List String :=
  ["https://www.google.com/ping?sitemap=", "https://www.bing.com/ping?sitemap="]

/-- The default sitemap URL used when `SITEMAP_URL` is unset. -/
def defaultSitemapUrl : String := "https://example.com/sitemap.xml"

/-- One hexadecimal digit. -/
def hexDigit (n : Nat) : Char :=
  if n < 10 then Char.ofNat (48 + n) else Char.ofNat (55 + n)

/-- The `%XX` percent-encoding of one byte value. -/
def percentByte (b : Nat) : String :=
  ⟨['%', hexDigit (b / 16 % 16), hexDigit (b % 16)]⟩

/-- The UTF-8 bytes of a character, as byte values. -/
def utf8Bytes (c : Char) : List Nat :=
  let n := c.toNat
  if n < 0x80 then [n]
  else if n < 0x800 then [0xC0 + n / 64, 0x80 + n % 64]
  else if n < 0x10000 then [0xE0 + n / 4096, 0x80 + n / 64 % 64, 0x80 + n % 64]
  else [0xF0 + n / 262144, 0x80 + n / 4096 % 64, 0x80 + n / 64 % 64, 0x80 + n % 64]

/-- Python `urllib.parse.quote_plus` on one character: alphanumerics and `_.-~`
kept, space becomes `+`, everything else percent-encoded bytewise. -/
def quotePlusChar (c : Char) : String :=
  if c.isAlphanum ∨ c = '_' ∨ c = '.' ∨ c = '-' ∨ c = '~' then
    String.singleton c
  else if c = ' ' then "+"
  else String.join ((utf8Bytes c).map percentByte)

/-- Python `urllib.parse.quote_plus`. -/
def quotePlus (s : String) : String :=
  String.join (s.data.map quotePlusChar)

/-- One log line of `ping_search.py`. -/
inductive PingLog where
  | pinged (url : String) (status : Nat)
  | failed (url : String) (err : String)
deriving DecidableEq, Repr

/-- One loop iteration of `ping_search.py`: the request outcome (status or
raised exception) is supplied by `outcome`; an exception is caught by the
`try`/`except` and turned into a `Fail` log line instead of propagating. -/
def pingOne (outcome : String → Except String Nat) (url : String) : PingLog :=
  match outcome url with
  | .ok status => .pinged url status
  | .error e => .failed url e

/-- The loop of `ping_search.py` over an endpoint list: every endpoint is
attempted, in order, regardless of earlier outcomes. -/
def pingAll (outcome : String → Except String Nat) (sitemap : String)
    (targets : List String) : List PingLog :=
  targets.map (fun t => pingOne outcome (t ++ quotePlus sitemap))

/-- The whole `ping_search.py` script: exit status (always 0 — nothing in
the module raises outside the per-request `try`) and the log lines. -/
def pingScript (sitemapEnv : Option String)
    (outcome : String → Except String Nat) : Nat × List PingLog :=
  (0, pingAll outcome (sitemapEnv.getD defaultSitemapUrl) pingTargets)

/-! ### Helper lemmas -/

theorem head?_dropWhile_false {p : Char → Bool} {l : List Char} {a : Char}
    (h : (l.dropWhile p).head? = some a) : p a = false := by
  induction l with
  | nil => simp at h
  | cons c cs ih =>
    rw [List.dropWhile_cons] at h
    by_cases hc : p c
    · simp [hc] at h; exact ih h
    · simp [hc] at h; simpa [h] using hc

theorem pyStripList_getLast?_not_white {l : List Char} {a : Char}
    (h : (pyStripList l).getLast? = some a) : a.isWhitespace = false := by
  unfold pyStripList at h
  rw [List.getLast?_reverse] at h
  exact head?_dropWhile_false h

theorem foldl_append_map {α β : Type} (f : α → β) (l : List α)
    (init : List β) :
    l.foldl (fun acc p => acc ++ [f p]) init = init ++ l.map f := by
  induction l generalizing init with
  | nil => simp
  | cons x xs ih => simp [ih, List.append_assoc]

theorem strContains_appendl {t pat : String} (u : String)
    (h : strContains t pat) : strContains (t ++ u) pat := by
  unfold strContains at *
  rw [String.data_append]
  exact h.trans ⟨[], u.data, by simp⟩

theorem strContains_append_self (t pat : String) :
    strContains (t ++ pat) pat := by
  unfold strContains
  rw [String.data_append]
  exact ⟨t.data, [], by simp⟩

theorem string_eq_of_data {s t : String} (h : s.data = t.data) : s = t := by
  ext1; exact h

theorem string_append_cancel_right {s s' t : String}
    (h : s ++ t = s' ++ t) : s = s' := by
  have hd : s.data ++ t.data = s'.data ++ t.data := by
    simpa [String.data_append] using congrArg String.data h
  exact string_eq_of_data (List.append_cancel_right hd)

theorem append_html_data (s : String) :
    (s ++ ".html").data = s.data ++ ['.', 'h', 't', 'm', 'l'] := by
  rw [String.data_append]

theorem append_html_revtake (s : String) :
    (s ++ ".html").data.reverse.take 5 = ['l', 'm', 't', 'h', '.'] := by
  rw [append_html_data, List.reverse_append]
  exact List.take_left ['l', 'm', 't', 'h', '.'] s.data.reverse

theorem append_html_ne_of_drop (s tgt : String) (n : Nat)
    (hn : tgt.data.length = n + 5)
    (hne : tgt.data.drop n ≠ ['.', 'h', 't', 'm', 'l']) :
    s ++ ".html" ≠ tgt := by
  intro h
  have hd : s.data ++ ['.', 'h', 't', 'm', 'l'] = tgt.data := by
    rw [← append_html_data, h]
  have hlen : s.data.length + 5 = n + 5 := by
    have := congrArg List.length hd
    simpa [hn] using this
  have hsn : s.data.length = n := by omega
  have hdrop := congrArg (List.drop s.data.length) hd
  rw [List.drop_left, hsn] at hdrop
  exact hne hdrop.symm

theorem append_html_ne_ads (s : String) : s ++ ".html" ≠ "ads.txt" :=
  append_html_ne_of_drop s _ 2 (by decide) (by decide)

theorem append_html_ne_robots (s : String) : s ++ ".html" ≠ "robots.txt" :=
  append_html_ne_of_drop s _ 5 (by decide) (by decide)

theorem append_html_ne_sitemap (s : String) : s ++ ".html" ≠ "sitemap.xml" :=
  append_html_ne_of_drop s _ 6 (by decide) (by decide)

theorem append_html_ne_nil (s : String) : s ++ ".html" ≠ "" := by
  intro h
  have hd : s.data ++ ['.', 'h', 't', 'm', 'l'] = [] := by
    rw [← append_html_data, h]
  simp at hd

theorem append_html_inj {s s' : String} (h : s ++ ".html" = s' ++ ".html") :
    s = s' :=
  string_append_cancel_right h

theorem detailPage_path {base_url : String} {conf : AffConf} {today : Date}
    {r : Row} {x : (String × String) × PageMeta}
    (h : detailPage base_url conf today r = some x) :
    x.1.1 = rowSlug r ++ ".html" ∧ rowSlug r ≠ "" := by
  unfold detailPage at h
  by_cases hs : rowSlug r = ""
  · simp [hs] at h
  · rw [if_neg hs] at h
    injection h with h
    exact ⟨by rw [← h], hs⟩

theorem detailPage_of_slug {base_url : String} {conf : AffConf}
    {today : Date} {r : Row} (h : rowSlug r ≠ "") :
    detailPage base_url conf today r =
      some ((rowSlug r ++ ".html", rowPageHtml base_url conf today r),
        ⟨rowTitle r, rowDesc r, rowSlug r ++ ".html"⟩) := by
  unfold detailPage
  simp [h]

theorem redirectWrite_path {base_url : String} {rr : RedirectRow}
    {w : String × String} (h : redirectWrite base_url rr = some w) :
    w.1 = pyStrip (rr.old_slug.getD "") ++ ".html" := by
  unfold redirectWrite at h
  by_cases hc : pyStrip (rr.old_slug.getD "") = "" ∨ pyStrip (rr.new_slug.getD "") = ""
  · simp [hc] at h
  · rw [if_neg hc] at h
    injection h with h
    rw [← h]

theorem single_write {ws1 ws2 : List (String × String)} {p v : String}
    (h1 : ∀ w ∈ ws1, w.1 ≠ p) (h2 : ∀ w ∈ ws2, w.1 ≠ p) :
    writeCount (ws1 ++ (p, v) :: ws2) p = 1 ∧
      lastWrite (ws1 ++ (p, v) :: ws2) p = some v := by
  constructor
  · unfold writeCount
    rw [List.countP_append, List.countP_cons]
    have hc1 : ws1.countP (fun w => w.1 == p) = 0 :=
      List.countP_eq_zero.mpr (fun w hw => by simp [h1 w hw])
    have hc2 : ws2.countP (fun w => w.1 == p) = 0 :=
      List.countP_eq_zero.mpr (fun w hw => by simp [h2 w hw])
    simp [hc1, hc2]
  · unfold lastWrite
    rw [List.reverse_append, List.reverse_cons]
    have hf2 : ws2.reverse.find? (fun w => w.1 == p) = none :=
      List.find?_eq_none.mpr (fun w hw => by simp [h2 w (List.mem_reverse.mp hw)])
    rw [List.append_assoc, List.find?_append, hf2]
    have hf1 : (((p, v) :: ws1.reverse)).find? (fun w => w.1 == p) = some (p, v) :=
      List.find?_cons_of_pos _ (by simp)
    simp [hf1]

theorem now_utc_iso_ne_empty (clock : DateTime) : now_utc_iso clock ≠ "" := by
  intro h
  have hd := congrArg String.data h
  simp [now_utc_iso, String.data_append] at hd

theorem now_utc_iso_last_z (clock : DateTime) :
    (now_utc_iso clock).data.getLast? = some 'Z' := by
  rw [now_utc_iso, String.data_append]
  exact List.getLast?_concat _

theorem add_url_lastmod (loc cf pr : String) {ts : String} (h : ts ≠ "") :
    (add_url loc cf pr (some ts)).lastmod = some ts := by
  simp [add_url, h]

theorem sitemap_urls_eq (base_url : String) (pages_meta : List PageMeta)
    (clock : DateTime) :
    sitemap_urls base_url pages_meta clock =
      add_url (base_url ++ "/") "weekly" "0.8" (some (now_utc_iso clock)) ::
        pages_meta.map (fun p =>
          add_url (base_url ++ "/" ++ p.path) "weekly" "0.6"
            (some (now_utc_iso clock))) := by
  unfold sitemap_urls
  rw [foldl_append_map]
  simp

theorem sitemap_urls_lastmod (base_url : String) (pages_meta : List PageMeta)
    (clock : DateTime) :
    ∀ e ∈ sitemap_urls base_url pages_meta clock,
      e.lastmod = some (now_utc_iso clock) := by
  intro e he
  rw [sitemap_urls_eq] at he
  rcases List.mem_cons.mp he with h | h
  · subst h; exact add_url_lastmod _ _ _ (now_utc_iso_ne_empty clock)
  · obtain ⟨p, _, rfl⟩ := List.mem_map.mp h
    exact add_url_lastmod _ _ _ (now_utc_iso_ne_empty clock)

/-! ### C7: the affiliate configuration reader -/

/-- C7 (confirmed).  For every parse function and every file state, reading
the JSON affiliate configuration yields the empty mapping when the file is
absent or when parsing fails; `read_json_safe` is a total function into
`AffConf`, so no exception reaches the caller in either case. -/
theorem read_json_safe_empty_on_missing_or_invalid
    (parse : String → Except String AffConf) (file : Option String) :
    (file = none → read_json_safe parse file = []) ∧
    (∀ s e, file = some s → parse s = .error e →
      read_json_safe parse file = []) := by
  constructor
  · intro h; subst h; rfl
  · intro s e hf hp
    subst hf
    simp [read_json_safe, hp]

/-- Witness for C7 at a concrete failing parse and a concrete absent file. -/
theorem read_json_safe_empty_on_missing_or_invalid_witness :
    read_json_safe (fun _ => .error "invalid json") (some "not json") = [] :=
  (read_json_safe_empty_on_missing_or_invalid
    (fun _ => .error "invalid json") (some "not json")).2
    "not json" "invalid json" rfl rfl

/-! ### C8: determinism of the pipeline -/

/-- C8 (confirmed).  The pipeline is a pure function of its inputs: two
runs over identical input files, identical environment and the same clock
readings perform identical write lists, hence byte-identical files.  The
force of the statement is that the embedding of `main` threads every input
— including both wall-clock readings — explicitly, leaving no other source
of variation. -/
theorem pipeline_run_deterministic
    (env₁ env₂ : Env) (items₁ items₂ : Option (List Row))
    (redirects₁ redirects₂ : Option (List RedirectRow))
    (conf₁ conf₂ : AffConf) (today₁ today₂ : Date) (clock₁ clock₂ : DateTime)
    (henv : env₁ = env₂) (hitems : items₁ = items₂)
    (hred : redirects₁ = redirects₂) (hconf : conf₁ = conf₂)
    (htoday : today₁ = today₂) (hclock : clock₁ = clock₂) :
    runPipeline env₁ items₁ redirects₁ conf₁ today₁ clock₁ =
      runPipeline env₂ items₂ redirects₂ conf₂ today₂ clock₂ := by
  subst henv; subst hitems; subst hred; subst hconf; subst htoday
  subst hclock
  rfl

/-- Witness for C8 at concrete inputs. -/
theorem pipeline_run_deterministic_witness :
    runPipeline {} (some [{ deeplink_slug := some "a" }]) none []
        ⟨2025, 9, 19⟩ ⟨2025, 9, 19, 5, 12, 0, 0⟩ =
      runPipeline {} (some [{ deeplink_slug := some "a" }]) none []
        ⟨2025, 9, 19⟩ ⟨2025, 9, 19, 5, 12, 0, 0⟩ :=
  pipeline_run_deterministic _ _ _ _ _ _ _ _ _ _ _ _
    rfl rfl rfl rfl rfl rfl

/-! ### C9: the ping utility -/

/-- C9 (confirmed).  For every endpoint list and every pattern of
per-request outcomes: each endpoint is pinged (one log line per endpoint,
and every endpoint's own log line is present regardless of the others'
outcomes), a failing request is caught and logged as a `failed` line
instead of propagating, and the script's exit status is 0 whatever the
outcomes are. -/
theorem ping_endpoints_isolated_failures
    (outcome : String → Except String Nat) (sitemap : String)
    (targets : List String) :
    (pingAll outcome sitemap targets).length = targets.length ∧
    (∀ t ∈ targets,
      pingOne outcome (t ++ quotePlus sitemap) ∈ pingAll outcome sitemap targets) ∧
    (∀ url e, outcome url = .error e → pingOne outcome url = .failed url e) ∧
    (∀ sitemapEnv, (pingScript sitemapEnv outcome).1 = 0) := by
  refine ⟨by simp [pingAll], ?_, ?_, fun _ => rfl⟩
  · intro t ht
    exact List.mem_map.mpr ⟨t, ht, rfl⟩
  · intro url e h
    simp [pingOne, h]

/-- Witness for C9: with the first hard-coded endpoint failing, the second
is still pinged and the script exits 0. -/
theorem ping_endpoints_isolated_failures_witness :
    pingOne
        (fun u => if u = "https://www.bing.com/ping?sitemap=https%3A%2F%2Fexample.com%2Fsitemap.xml"
          then Except.ok 200 else Except.error "unreachable")
        ("https://www.bing.com/ping?sitemap=" ++ quotePlus defaultSitemapUrl) ∈
      pingAll
        (fun u => if u = "https://www.bing.com/ping?sitemap=https%3A%2F%2Fexample.com%2Fsitemap.xml"
          then Except.ok 200 else Except.error "unreachable")
        defaultSitemapUrl pingTargets :=
  (ping_endpoints_isolated_failures _ defaultSitemapUrl pingTargets).2.1
    "https://www.bing.com/ping?sitemap=" (by decide)

/-! ### C4: the affiliate link builder -/

/-- C4 counterexample.  A merchant configuration can provide both a
base-URL template and a utm fragment and yet yield no joined link: with
template `{slug}` and the empty slug the substituted base is empty, the
`if base and utm` guard fails, and `load_affiliate` returns `""` instead of
the join the claim prescribes (which would be `?tag=x`). -/
theorem affiliate_link_empty_subst_cex :
    load_affiliate
        [("amazon", { deeplink_base := some "{slug}", utm := some "tag=x" })]
        (some "amazon") "" = "" ∧
      ("" : String) ≠ pyFormatSlug "{slug}" "" ++ "?" ++ "tag=x" := by
  decide

/-- C4 (amended).  For every merchant whose configuration provides both a
base-URL template and a utm fragment, provided the slug-substituted base is
non-empty, the builder returns the substituted base joined to the utm
fragment with `&` when the base contains `?`, else with `?`. -/
theorem affiliate_link_joined_amended
    (conf : AffConf) (merchant : Option String) (slug : String)
    (m : MerchantConf) (b u : String)
    (hm : List.lookup (merchant.getD "") conf = some m)
    (hb : m.deeplink_base = some b) (hu : m.utm = some u)
    (hbase : pyFormatSlug b slug ≠ "") (hune : u ≠ "") :
    load_affiliate conf merchant slug =
      pyFormatSlug b slug ++
        (if (pyFormatSlug b slug).data.contains '?' then "&" else "?") ++ u := by
  unfold load_affiliate
  rw [hm]
  simp [hb, hu, hbase, hune]

/-- Witness for C4: the spec's own example — base template
`https://amazon.com/dp/{slug}`, utm `tag=rino-20`, slug `abc123` — joins
with `?`. -/
theorem affiliate_link_joined_amended_witness :
    load_affiliate
        [("amazon", { deeplink_base := some "https://amazon.com/dp/{slug}",
                      utm := some "tag=rino-20" })]
        (some "amazon") "abc123" = "https://amazon.com/dp/abc123?tag=rino-20" :=
  (affiliate_link_joined_amended
      [("amazon", { deeplink_base := some "https://amazon.com/dp/{slug}",
                    utm := some "tag=rino-20" })]
      (some "amazon") "abc123"
      { deeplink_base := some "https://amazon.com/dp/{slug}",
        utm := some "tag=rino-20" }
      "https://amazon.com/dp/{slug}" "tag=rino-20"
      (by decide) rfl rfl (by decide) (by decide)).trans (by decide)

/-! ### C6: the ads declaration file -/

theorem strip_newline_last (raw : String) :
    (pyStrip raw ++ "\n").data.getLast? = some '\n' := by
  rw [String.data_append]
  exact List.getLast?_concat _

theorem strip_newline_dropLast (raw : String) :
    ∀ c, (pyStrip raw ++ "\n").data.dropLast.getLast? = some c → c ≠ '\n' := by
  intro c hc hn
  rw [String.data_append] at hc
  simp only [List.dropLast_concat] at hc
  have hw := @pyStripList_getLast?_not_white raw.data c hc
  subst hn
  exact absurd hw (by decide)

/-- C6 counterexample.  With `ADS_TXT_LINE` set to `" x"` the file content
is the stripped line `"x\n"`, not the override followed by a newline: the
claim as stated fails on any override with surrounding whitespace. -/
theorem ads_txt_unstripped_override_cex :
    write_ads_txt_content (some " x") defaultAdsLine = "x\n" ∧
      ("x\n" : String) ≠ " x" ++ "\n" := by
  decide

/-- C6 (amended).  The ads-declaration content equals the
whitespace-stripped override when the variable is set to a non-empty
string, else the whitespace-stripped default line (an override set to the
empty string behaves like an unset one), and in either case the content is
terminated by exactly one trailing newline: it ends with `'\n'` and the
character before that newline, when one exists, is not `'\n'`. -/
theorem ads_txt_line_amended (adsEnv : Option String) (defLine : String) :
    (∀ s, adsEnv = some s → s ≠ "" →
      write_ads_txt_content adsEnv defLine = pyStrip s ++ "\n") ∧
    ((adsEnv = none ∨ adsEnv = some "") →
      write_ads_txt_content adsEnv defLine = pyStrip defLine ++ "\n") ∧
    (write_ads_txt_content adsEnv defLine).data.getLast? = some '\n' ∧
    (∀ c, (write_ads_txt_content adsEnv defLine).data.dropLast.getLast? = some c →
      c ≠ '\n') := by
  refine ⟨?_, ?_, strip_newline_last _, strip_newline_dropLast _⟩
  · intro s hs hne
    subst hs
    simp [write_ads_txt_content, adsRawLine, hne]
  · intro h
    rcases h with h | h <;> subst h <;> rfl

/-- Witness for C6 at a concrete non-empty override. -/
theorem ads_txt_line_amended_witness :
    write_ads_txt_content (some "example.com, pub-1, DIRECT, abc") defaultAdsLine =
      pyStrip "example.com, pub-1, DIRECT, abc" ++ "\n" :=
  (ads_txt_line_amended (some "example.com, pub-1, DIRECT, abc")
    defaultAdsLine).1 "example.com, pub-1, DIRECT, abc" rfl (by decide)

/-! ### C2: rows with empty slug -/

/-- C2 (confirmed).  A row whose trimmed `deeplink_slug` is empty
contributes nothing to the run: the pipeline over a row list containing it
performs exactly the write list of the pipeline with the row removed — no
document for the row, no entry in the index page list, no entry in the
sitemap, and (the run being a total function) no error. -/
theorem empty_slug_row_skipped
    (env : Env) (redirects : Option (List RedirectRow)) (conf : AffConf)
    (today : Date) (clock : DateTime) (pre post : List Row) (r : Row)
    (h : rowSlug r = "") :
    runPipeline env (some (pre ++ r :: post)) redirects conf today clock =
      runPipeline env (some (pre ++ post)) redirects conf today clock := by
  have hnone : detailPage (runBaseUrl env) conf today r = none := by
    simp [detailPage, h]
  simp [runPipeline, runIndexHtml, runPagesMeta, List.filterMap_append,
    List.filterMap_cons, hnone]

/-- Witness for C2: a whitespace-only slug row between two real rows. -/
theorem empty_slug_row_skipped_witness :
    runPipeline {} (some [{ deeplink_slug := some "a" },
        { deeplink_slug := some "  " }, { deeplink_slug := some "b" }])
      none [] ⟨2025, 9, 19⟩ ⟨2025, 9, 19, 5, 12, 0, 0⟩ =
    runPipeline {} (some [{ deeplink_slug := some "a" },
        { deeplink_slug := some "b" }])
      none [] ⟨2025, 9, 19⟩ ⟨2025, 9, 19, 5, 12, 0, 0⟩ :=
  empty_slug_row_skipped {} none [] ⟨2025, 9, 19⟩ ⟨2025, 9, 19, 5, 12, 0, 0⟩
    [{ deeplink_slug := some "a" }] [{ deeplink_slug := some "b" }]
    { deeplink_slug := some "  " } (by decide)

/-! ### C10: a single lastmod per sitemap write -/

/-- C10 (confirmed).  Every `url` entry of a sitemap write — the root entry
and every page entry — carries the same `lastmod` value, the one timestamp
computed from the clock captured at the top of `write_sitemap`; that
timestamp ends with `'Z'`, and it has seconds precision: it does not depend
on the clock's microsecond field. -/
theorem sitemap_lastmod_single_capture
    (base_url : String) (pages_meta : List PageMeta) (clock : DateTime) :
    (∀ e ∈ sitemap_urls base_url pages_meta clock,
      e.lastmod = some (now_utc_iso clock)) ∧
    (now_utc_iso clock).data.getLast? = some 'Z' ∧
    (∀ clock₂ : DateTime, clock₂.year = clock.year →
      clock₂.month = clock.month → clock₂.day = clock.day →
      clock₂.hour = clock.hour → clock₂.minute = clock.minute →
      clock₂.second = clock.second → now_utc_iso clock₂ = now_utc_iso clock) :=
  ⟨sitemap_urls_lastmod base_url pages_meta clock, now_utc_iso_last_z clock, by
    intro c₂ hy hmo hd hh hmi hs
    simp [now_utc_iso, isoDateTime, hy, hmo, hd, hh, hmi, hs]⟩

/-- Witness for C10: two clocks differing only in microseconds produce the
same timestamp, and the single root entry of an empty run carries it. -/
theorem sitemap_lastmod_single_capture_witness :
    now_utc_iso ⟨2025, 9, 19, 5, 12, 7, 999999⟩ =
      now_utc_iso ⟨2025, 9, 19, 5, 12, 7, 0⟩ :=
  (sitemap_lastmod_single_capture "https://rinosene.github.io" []
      ⟨2025, 9, 19, 5, 12, 7, 0⟩).2.2
    ⟨2025, 9, 19, 5, 12, 7, 999999⟩ rfl rfl rfl rfl rfl rfl

/-! ### C3: sitemap structure -/

theorem detailPage_meta_path {base_url : String} {conf : AffConf}
    {today : Date} {r : Row} {x : (String × String) × PageMeta}
    (h : detailPage base_url conf today r = some x) :
    x.2.path = rowSlug r ++ ".html" ∧ rowSlug r ≠ "" := by
  unfold detailPage at h
  by_cases hs : rowSlug r = ""
  · simp [hs] at h
  · rw [if_neg hs] at h
    injection h with h
    exact ⟨by rw [← h], hs⟩

theorem runPagesMeta_path (env : Env) (items : Option (List Row))
    (conf : AffConf) (today : Date) :
    ∀ m ∈ runPagesMeta env items conf today,
      ∃ s, s ≠ "" ∧ m.path = s ++ ".html" := by
  intro m hm
  unfold runPagesMeta at hm
  obtain ⟨x, hx, rfl⟩ := List.mem_map.mp hm
  obtain ⟨r, _, hr⟩ := List.mem_filterMap.mp hx
  obtain ⟨hpath, hne⟩ := detailPage_meta_path hr
  exact ⟨rowSlug r, hne, hpath⟩

theorem lastWrite_append_of_some {ws₂ : List (String × String)} {p v : String}
    (ws₁ : List (String × String)) (h : lastWrite ws₂ p = some v) :
    lastWrite (ws₁ ++ ws₂) p = some v := by
  unfold lastWrite at *
  rw [List.reverse_append, List.find?_append]
  cases hfind : ws₂.reverse.find? (fun w => w.1 == p) with
  | none => rw [hfind] at h; simp at h
  | some w =>
    rw [hfind] at h
    simpa using h

theorem string_append_right_empty {s t : String} (h : s ++ t = s) : t = "" := by
  have hd := congrArg String.data h
  rw [String.data_append] at hd
  apply string_eq_of_data
  have : s.data ++ t.data = s.data ++ [] := by simpa using hd
  simpa using List.append_cancel_left this

/-- C3 (confirmed).  The sitemap written by a run consists of exactly the
root entry — priority `0.8`, loc `{base_url}/` — followed by exactly one
entry per accumulated page record, each with priority `0.6` and changefreq
`weekly`; the root loc occurs exactly once; every entry carries a
`lastmod`; and the emitted `sitemap.xml` is computed from the accumulated
page records alone, for any redirect input whatsoever, so redirect stubs
never appear in it. -/
theorem sitemap_entry_structure
    (env : Env) (items : Option (List Row))
    (redirects : Option (List RedirectRow)) (conf : AffConf)
    (today : Date) (clock : DateTime) :
    sitemap_urls (runBaseUrl env) (runPagesMeta env items conf today) clock =
      add_url (runBaseUrl env ++ "/") "weekly" "0.8" (some (now_utc_iso clock)) ::
        (runPagesMeta env items conf today).map (fun p =>
          add_url (runBaseUrl env ++ "/" ++ p.path) "weekly" "0.6"
            (some (now_utc_iso clock))) ∧
    (sitemap_urls (runBaseUrl env) (runPagesMeta env items conf today)
        clock).countP (fun e => e.loc == runBaseUrl env ++ "/") = 1 ∧
    (∀ e ∈ sitemap_urls (runBaseUrl env) (runPagesMeta env items conf today)
        clock, ∃ ts, e.lastmod = some ts) ∧
    lastWrite (runPipeline env items redirects conf today clock) "sitemap.xml" =
      some (sitemap_xml (runBaseUrl env) (runPagesMeta env items conf today)
        clock) := by
  refine ⟨sitemap_urls_eq _ _ _, ?_, ?_, ?_⟩
  · rw [sitemap_urls_eq, List.countP_cons]
    simp [add_url]
    intro p hp hloc
    obtain ⟨s, hs, hpath⟩ := runPagesMeta_path env items conf today p hp
    have hnil : p.path = "" := string_append_right_empty hloc
    rw [hpath] at hnil
    exact append_html_ne_nil s hnil
  · intro e he
    exact ⟨now_utc_iso clock, sitemap_urls_lastmod _ _ _ e he⟩
  · simp only [runPipeline]
    apply lastWrite_append_of_some
    rfl

/-- Witness for C3: the single root entry of a run with no items carries a
`lastmod` timestamp. -/
theorem sitemap_entry_structure_witness :
    ∃ ts, (add_url ("https://rinosene.github.io" ++ "/") "weekly" "0.8"
      (some (now_utc_iso ⟨2025, 9, 19, 5, 12, 0, 0⟩))).lastmod = some ts :=
  (sitemap_entry_structure {} none none [] ⟨2025, 9, 19⟩
      ⟨2025, 9, 19, 5, 12, 0, 0⟩).2.2.1 _ (by decide)

/-! ### C5: soft redirects -/

theorem soft_redirect_contains_refresh (to_url : String) :
    strContains (write_soft_redirect_html to_url)
      ("content=\"0;url=" ++ to_url ++ "\"") := by
  unfold write_soft_redirect_html
  repeat
    first
    | exact strContains_append_self _ _
    | apply strContains_appendl

theorem soft_redirect_contains_canonical (to_url : String) :
    strContains (write_soft_redirect_html to_url)
      ("<link rel=\"canonical\" href=\"" ++ to_url ++ "\"/>") := by
  unfold write_soft_redirect_html
  repeat
    first
    | exact strContains_append_self _ _
    | apply strContains_appendl

/-- C5 (confirmed).  A redirect row whose trimmed slugs are both non-empty
makes the pipeline write `{old_slug}.html` whose content holds a zero-delay
meta-refresh directive and a canonical link, both targeting
`{base_url}/{new_slug}.html`; a redirect row with either trimmed slug empty
contributes nothing: the run equals the run with that row removed. -/
theorem redirect_row_written_or_skipped
    (env : Env) (items : Option (List Row)) (conf : AffConf) (today : Date)
    (clock : DateTime) (pre post : List RedirectRow) (rr : RedirectRow) :
    (pyStrip (rr.old_slug.getD "") ≠ "" → pyStrip (rr.new_slug.getD "") ≠ "" →
      (pyStrip (rr.old_slug.getD "") ++ ".html",
        write_soft_redirect_html
          (runBaseUrl env ++ "/" ++ pyStrip (rr.new_slug.getD "") ++ ".html"))
        ∈ runPipeline env items (some (pre ++ rr :: post)) conf today clock ∧
      strContains
        (write_soft_redirect_html
          (runBaseUrl env ++ "/" ++ pyStrip (rr.new_slug.getD "") ++ ".html"))
        ("content=\"0;url=" ++
          (runBaseUrl env ++ "/" ++ pyStrip (rr.new_slug.getD "") ++ ".html")
          ++ "\"") ∧
      strContains
        (write_soft_redirect_html
          (runBaseUrl env ++ "/" ++ pyStrip (rr.new_slug.getD "") ++ ".html"))
        ("<link rel=\"canonical\" href=\"" ++
          (runBaseUrl env ++ "/" ++ pyStrip (rr.new_slug.getD "") ++ ".html")
          ++ "\"/>")) ∧
    ((pyStrip (rr.old_slug.getD "") = "" ∨ pyStrip (rr.new_slug.getD "") = "") →
      runPipeline env items (some (pre ++ rr :: post)) conf today clock =
        runPipeline env items (some (pre ++ post)) conf today clock) := by
  constructor
  · intro h1 h2
    refine ⟨?_, soft_redirect_contains_refresh _, soft_redirect_contains_canonical _⟩
    have hw : redirectWrite (runBaseUrl env) rr =
        some (pyStrip (rr.old_slug.getD "") ++ ".html",
          write_soft_redirect_html
            (runBaseUrl env ++ "/" ++ pyStrip (rr.new_slug.getD "") ++ ".html")) := by
      unfold redirectWrite
      rw [if_neg (not_or.mpr ⟨h1, h2⟩)]
    simp only [runPipeline]
    refine List.mem_append.mpr (Or.inl (List.mem_append.mpr (Or.inr ?_)))
    exact List.mem_filterMap.mpr ⟨rr, by simp, hw⟩
  · intro h
    have hnone : redirectWrite (runBaseUrl env) rr = none := by
      unfold redirectWrite
      rw [if_pos h]
    simp [runPipeline, List.filterMap_append, List.filterMap_cons, hnone]

/-- Witness for C5 at the spec's example mapping `(foo, bar)`. -/
theorem redirect_row_written_or_skipped_witness :
    (pyStrip ((⟨some "foo", some "bar"⟩ : RedirectRow).old_slug.getD "") ++ ".html",
      write_soft_redirect_html
        (runBaseUrl {} ++ "/" ++
          pyStrip ((⟨some "foo", some "bar"⟩ : RedirectRow).new_slug.getD "") ++ ".html"))
      ∈ runPipeline {} none (some ([] ++ (⟨some "foo", some "bar"⟩ : RedirectRow) :: []))
          [] ⟨2025, 9, 19⟩ ⟨2025, 9, 19, 5, 12, 0, 0⟩ :=
  ((redirect_row_written_or_skipped {} none [] ⟨2025, 9, 19⟩
      ⟨2025, 9, 19, 5, 12, 0, 0⟩ [] [] ⟨some "foo", some "bar"⟩).1
    (by decide) (by decide)).1

/-! ### C1: detail pages -/

theorem runPipeline_eq (env : Env) (items : Option (List Row))
    (redirects : Option (List RedirectRow)) (conf : AffConf)
    (today : Date) (clock : DateTime) :
    runPipeline env items redirects conf today clock =
      ((items.getD []).filterMap (detailPage (runBaseUrl env) conf today)).map
          Prod.fst
        ++ ("index.html", runIndexHtml env items conf today) ::
          ((redirects.getD []).filterMap (redirectWrite (runBaseUrl env))
            ++ [("ads.txt", write_ads_txt_content env.adsLine defaultAdsLine),
                ("robots.txt", robots_txt_content (runBaseUrl env)),
                ("sitemap.xml",
                  sitemap_xml (runBaseUrl env)
                    (runPagesMeta env items conf today) clock)]) := by
  simp [runPipeline, List.append_assoc]

theorem render_page_template_contains
    (t d c s : String) (y : Nat) (a b q1 a1 q2 a2 u : String) :
    strContains (render_page_template t d c s y a b q1 a1 q2 a2 u) t ∧
    strContains (render_page_template t d c s y a b q1 a1 q2 a2 u) d := by
  unfold render_page_template
  constructor
  · iterate 19 apply strContains_appendl
    exact strContains_append_self _ _
  · iterate 17 apply strContains_appendl
    exact strContains_append_self _ _

theorem rowPageHtml_contains_title (base_url : String) (conf : AffConf)
    (today : Date) (r : Row) :
    strContains (rowPageHtml base_url conf today r) (rowTitle r) := by
  unfold rowPageHtml
  exact (render_page_template_contains _ _ _ _ _ _ _ _ _ _ _ _).1

theorem rowPageHtml_contains_desc (base_url : String) (conf : AffConf)
    (today : Date) (r : Row) :
    strContains (rowPageHtml base_url conf today r) (rowDesc r) := by
  unfold rowPageHtml
  exact (render_page_template_contains _ _ _ _ _ _ _ _ _ _ _ _).2

theorem pagesWrites_ne {base_url : String} {conf : AffConf} {today : Date}
    {rows : List Row} {slug : String}
    (hrows : ∀ r' ∈ rows, rowSlug r' ≠ slug) :
    ∀ w ∈ (rows.filterMap (detailPage base_url conf today)).map Prod.fst,
      w.1 ≠ slug ++ ".html" := by
  intro w hw heq
  obtain ⟨x, hx, rfl⟩ := List.mem_map.mp hw
  obtain ⟨r', hr', hd⟩ := List.mem_filterMap.mp hx
  obtain ⟨hpath, _⟩ := detailPage_path hd
  rw [hpath] at heq
  exact hrows r' hr' (append_html_inj heq)

/-- C1 counterexample rows: two rows sharing the slug `s`. -/
def dupRowA : Row :=
  { keyword := some "Qk1", entity := some "e1", «attribute» := some "a1",
    modifier := some "m1", deeplink_slug := some "s" }

def dupRowB : Row :=
  { keyword := some "k2", entity := some "e2", «attribute» := some "a2",
    modifier := some "m2", deeplink_slug := some "s" }

theorem not_strContains_of_missing_char {doc pat : String} (c : Char)
    (hp : c ∈ pat.data) (hd : c ∉ doc.data) : ¬ strContains doc pat := by
  rintro ⟨s, t, h⟩
  exact hd (h ▸ List.mem_append.mpr (Or.inl (List.mem_append.mpr (Or.inr hp))))

set_option maxRecDepth 8000 in
/-- C1 counterexample.  With two rows sharing the non-empty slug `s`, the
pipeline writes `s.html` twice, not once, and the single surviving document
does not contain the first row's derived title (the title holds the
character `Q`, which occurs nowhere in the document): the claim fails for
the first row. -/
theorem detail_page_duplicate_slug_cex :
    writeCount
        (runPipeline {} (some [dupRowA, dupRowB]) none [] ⟨2025, 9, 19⟩
          ⟨2025, 9, 19, 5, 12, 0, 0⟩) "s.html" = 2 ∧
    (lastWrite
        (runPipeline {} (some [dupRowA, dupRowB]) none [] ⟨2025, 9, 19⟩
          ⟨2025, 9, 19, 5, 12, 0, 0⟩) "s.html").isSome = true ∧
    ¬ strContains
        ((lastWrite
          (runPipeline {} (some [dupRowA, dupRowB]) none [] ⟨2025, 9, 19⟩
            ⟨2025, 9, 19, 5, 12, 0, 0⟩) "s.html").getD "")
        (rowTitle dupRowA) :=
  ⟨by decide, by decide,
    not_strContains_of_missing_char 'Q' (by decide) (by decide)⟩

/-- C1 (amended).  For every input row whose trimmed slug is non-empty,
provided no other row of the run shares its slug, its slug is not `index`,
and no redirect row's trimmed old slug equals it, the pipeline writes
`{slug}.html` exactly once, the final content of that path is the row's
rendered detail document, and that document contains the row's derived
title and description. -/
theorem detail_page_unique_write_amended
    (env : Env) (redirects : Option (List RedirectRow)) (conf : AffConf)
    (today : Date) (clock : DateTime) (pre post : List Row) (r : Row)
    (hslug : rowSlug r ≠ "")
    (hdup : ∀ r' ∈ pre ++ post, rowSlug r' ≠ rowSlug r)
    (hidx : rowSlug r ≠ "index")
    (hred : ∀ rr ∈ redirects.getD [],
      pyStrip (rr.old_slug.getD "") ≠ rowSlug r) :
    writeCount
        (runPipeline env (some (pre ++ r :: post)) redirects conf today clock)
        (rowSlug r ++ ".html") = 1 ∧
    lastWrite
        (runPipeline env (some (pre ++ r :: post)) redirects conf today clock)
        (rowSlug r ++ ".html")
      = some (rowPageHtml (runBaseUrl env) conf today r) ∧
    strContains (rowPageHtml (runBaseUrl env) conf today r) (rowTitle r) ∧
    strContains (rowPageHtml (runBaseUrl env) conf today r) (rowDesc r) := by
  have hx := @detailPage_of_slug (runBaseUrl env) conf today r hslug
  have heq : runPipeline env (some (pre ++ r :: post)) redirects conf today clock
      = (pre.filterMap (detailPage (runBaseUrl env) conf today)).map Prod.fst
        ++ (rowSlug r ++ ".html", rowPageHtml (runBaseUrl env) conf today r) ::
          ((post.filterMap (detailPage (runBaseUrl env) conf today)).map Prod.fst
            ++ ("index.html",
                runIndexHtml env (some (pre ++ r :: post)) conf today) ::
              ((redirects.getD []).filterMap (redirectWrite (runBaseUrl env))
                ++ [("ads.txt", write_ads_txt_content env.adsLine defaultAdsLine),
                    ("robots.txt", robots_txt_content (runBaseUrl env)),
                    ("sitemap.xml",
                      sitemap_xml (runBaseUrl env)
                        (runPagesMeta env (some (pre ++ r :: post)) conf today)
                        clock)])) := by
    rw [runPipeline_eq]
    simp [List.filterMap_append, List.filterMap_cons, hx, List.append_assoc]
  have h1 : ∀ w ∈ (pre.filterMap (detailPage (runBaseUrl env) conf today)).map
      Prod.fst, w.1 ≠ rowSlug r ++ ".html" :=
    pagesWrites_ne (fun r' h => hdup r' (List.mem_append_left _ h))
  have h2 : ∀ w ∈ (post.filterMap (detailPage (runBaseUrl env) conf today)).map
        Prod.fst
      ++ ("index.html", runIndexHtml env (some (pre ++ r :: post)) conf today) ::
        ((redirects.getD []).filterMap (redirectWrite (runBaseUrl env))
          ++ [("ads.txt", write_ads_txt_content env.adsLine defaultAdsLine),
              ("robots.txt", robots_txt_content (runBaseUrl env)),
              ("sitemap.xml",
                sitemap_xml (runBaseUrl env)
                  (runPagesMeta env (some (pre ++ r :: post)) conf today)
                  clock)]),
      w.1 ≠ rowSlug r ++ ".html" := by
    intro w hw
    rcases List.mem_append.mp hw with hpost | hrest
    · exact pagesWrites_ne (fun r' h => hdup r' (List.mem_append_right _ h))
        w hpost
    · rcases List.mem_cons.mp hrest with hindex | htail
      · subst hindex
        intro hcontra
        have hcat : ("index" : String) ++ ".html" = rowSlug r ++ ".html" :=
          hcontra
        exact hidx (append_html_inj hcat).symm
      · rcases List.mem_append.mp htail with hredw | haux
        · obtain ⟨rr, hrr, hsome⟩ := List.mem_filterMap.mp hredw
          intro hcontra
          rw [redirectWrite_path hsome] at hcontra
          exact hred rr hrr (append_html_inj hcontra)
        · rcases List.mem_cons.mp haux with h | h
          · subst h; exact fun hc => append_html_ne_ads _ hc.symm
          · rcases List.mem_cons.mp h with h | h
            · subst h; exact fun hc => append_html_ne_robots _ hc.symm
            · rcases List.mem_cons.mp h with h | h
              · subst h; exact fun hc => append_html_ne_sitemap _ hc.symm
              · simp at h
  obtain ⟨hcount, hlast⟩ := single_write h1 h2
  rw [heq]
  exact ⟨hcount, hlast, rowPageHtml_contains_title _ _ _ _,
    rowPageHtml_contains_desc _ _ _ _⟩

/-- Witness for C1 at a single concrete row. -/
theorem detail_page_unique_write_amended_witness :
    writeCount
        (runPipeline {} (some ([] ++ ({ deeplink_slug := some "abc" } : Row) :: []))
          none [] ⟨2025, 9, 19⟩ ⟨2025, 9, 19, 5, 12, 0, 0⟩)
        (rowSlug { deeplink_slug := some "abc" } ++ ".html") = 1 :=
  (detail_page_unique_write_amended {} none [] ⟨2025, 9, 19⟩
      ⟨2025, 9, 19, 5, 12, 0, 0⟩ [] [] { deeplink_slug := some "abc" }
      (by decide) (by simp) (by decide) (by simp)).1
